import Mathlib

/-!
Verification development for the iRangeGraph benchmarking harness
(src/include/fanns_survey_helpers.cpp, src/tests/search_wrapper.cpp,
src/unnamed/part_000 — the build wrapper).

Shallow embedding conventions:
* File contents are modelled as `Option` values: `none` models a file that
  cannot be opened, `some` carries the content (a `List String` of lines for
  the text parsers, a `List Nat` of bytes for the binary codecs).
* C++ exceptions are modelled with `Except`; the error value carries the
  exception message where the message matters to a claim.
* 32-bit machine integers are modelled as `Int` with explicit range checks
  where the source can overflow (std::stoi range checking), and byte-level
  framing uses `Nat` with explicit `% 256` / `% 2 ^ 32` arithmetic.
* The external index engine (iRG_search.h / construction.h) is out of scope
  per spec section 1; search results are modelled as an oracle function from
  query index to the drained list of sorted-space result ids.
-/

instance {ε α : Type} [DecidableEq ε] [DecidableEq α] : DecidableEq (Except ε α) := fun a b =>
  match a, b with
  | .error e1, .error e2 =>
    if h : e1 = e2 then .isTrue (by rw [h]) else .isFalse (by simp [h])
  | .ok v1, .ok v2 =>
    if h : v1 = v2 then .isTrue (by rw [h]) else .isFalse (by simp [h])
  | .error _, .ok _ => .isFalse (by simp)
  | .ok _, .error _ => .isFalse (by simp)

/-- C locale isspace, as consumed by strtol / stream extraction. -/
def isSpaceChar (c : Char) : Bool :=
  c = ' ' ∨ c = '\t' ∨ c = '\n' ∨ c = '\x0b' ∨ c = '\x0c' ∨ c = '\r'

def isDigitChar (c : Char) : Bool :=
  '0' ≤ c ∧ c ≤ '9'

/-- Value of a run of decimal digits. -/
def digitsVal (ds : List Char) : Nat :=
  ds.foldl (fun a c => 10 * a + (c.toNat - 48)) 0

/-- Shared integer-reading core of `std::stoi` and stream `operator>>` on int:
skip leading whitespace, an optional sign, then a nonempty run of decimal
digits; remaining characters are left unconsumed.  A value outside the int32
range is an error (std::stoi throws out_of_range, operator>> sets failbit). -/
def parseIntCore (cs : List Char) : Except Unit (Int × List Char) :=
  let cs1 := cs.dropWhile isSpaceChar
  let signAndRest : Bool × List Char :=
    match cs1 with
    | '-' :: t => (true, t)
    | '+' :: t => (false, t)
    | _ => (false, cs1)
  let ds := signAndRest.2.takeWhile isDigitChar
  let rest := signAndRest.2.dropWhile isDigitChar
  if ds.isEmpty then .error ()
  else
    let v : Int := if signAndRest.1 then -(digitsVal ds : Int) else (digitsVal ds : Int)
    if v < -(2 ^ 31) ∨ 2 ^ 31 - 1 < v then .error ()
    else .ok (v, rest)

/-- Model of `std::stoi`: integer-reading core, trailing characters ignored. -/
def stoi (s : String) : Except Unit Int :=
  match parseIntCore s.data with
  | .error e => .error e
  | .ok (v, _) => .ok v

/-- Split a character list at its first hyphen:
`getline(ss, first, '-')` followed by `getline(ss, second)`.  `none` when the
list has no hyphen (the second getline then fails at end-of-stream, as it does
on an empty line). -/
def breakAtHyphen : List Char → Option (List Char × List Char)
  | [] => none
  | c :: cs =>
    if c = '-' then some ([], cs)
    else
      match breakAtHyphen cs with
      | none => none
      | some (f, s) => some (c :: f, s)

inductive LineFault where
  | badFormat : LineFault
  | badInt : LineFault
deriving DecidableEq, Repr

/-- One line of `read_two_ints_per_line` (fanns_survey_helpers.cpp:110-124).
`getline(ss, first, '-')` fails only on an empty line; `getline(ss, second)`
fails when the line has no hyphen (stream already at eof) or nothing follows
the first hyphen.  The source's `!ss.eof()` test is always false after the
second getline succeeds (it read to end of the single-line stream), so it
rejects nothing.  Both fields then go through `std::stoi`. -/
def parseRangeLine (line : String) : Except LineFault (Int × Int) :=
  match breakAtHyphen line.data with
  | none => .error .badFormat
  | some (_, []) => .error .badFormat
  | some (f, s) =>
    match stoi (String.mk f), stoi (String.mk s) with
    | .ok a, .ok b => .ok (a, b)
    | _, _ => .error .badInt

/-- Line loop of `read_two_ints_per_line`, carrying the 1-based line number. -/
def read_two_ints_lines : List String → Nat → Except String (List (Int × Int))
  | [], _ => .ok []
  | l :: ls, n =>
    match parseRangeLine l with
    | .error .badFormat => .error ("Invalid format at line " ++ toString n)
    | .error .badInt => .error ("Invalid integer value at line " ++ toString n)
    | .ok p =>
      match read_two_ints_lines ls (n + 1) with
      | .error e => .error e
      | .ok r => .ok (p :: r)

/-- `read_two_ints_per_line` (fanns_survey_helpers.cpp:102-126): raises on
open failure, otherwise parses every line as a hyphen-separated pair. -/
def read_two_ints_per_line (file : Option (List String)) (filename : String) :
    Except String (List (Int × Int)) :=
  match file with
  | none => .error ("Error opening file: " ++ filename)
  | some lines => read_two_ints_lines lines 1

/-- Token sequence produced by the `while (std::getline(ss, token, ','))`
loop: a comma ends the current token; getline fails only at end-of-stream
with nothing extracted, so an empty line yields no token and a trailing
comma yields no trailing empty token. -/
def csvTokens : List Char → List (List Char)
  | [] => []
  | c :: cs =>
    if c = ',' then [] :: csvTokens cs
    else
      match csvTokens cs with
      | [] => [[c]]
      | t :: ts => (c :: t) :: ts

/-- Token loop body of `read_multiple_ints_per_line`
(fanns_survey_helpers.cpp:88-96): empty tokens silently skipped, others
through `std::stoi`; any stoi exception is a fault for the whole line. -/
def parseCSVTokens : List (List Char) → Except Unit (List Int)
  | [] => .ok []
  | t :: ts =>
    if t.isEmpty then parseCSVTokens ts
    else
      match stoi (String.mk t), parseCSVTokens ts with
      | .error _, _ => .error ()
      | .ok v, .ok r => .ok (v :: r)
      | .ok _, .error e => .error e

/-- One row of `read_multiple_ints_per_line` (fanns_survey_helpers.cpp:85-96). -/
def parseCSVRow (line : String) : Except Unit (List Int) :=
  parseCSVTokens (csvTokens line.data)

/-- Line loop of `read_multiple_ints_per_line`, 1-based line numbers. -/
def read_multi_lines : List String → Nat → Except String (List (List Int))
  | [], _ => .ok []
  | l :: ls, n =>
    match parseCSVRow l with
    | .error _ => .error ("Invalid integer on line " ++ toString n)
    | .ok row =>
      match read_multi_lines ls (n + 1) with
      | .error e => .error e
      | .ok rows => .ok (row :: rows)

/-- `read_multiple_ints_per_line` (fanns_survey_helpers.cpp:75-100). -/
def read_multiple_ints_per_line (file : Option (List String)) (filename : String) :
    Except String (List (List Int)) :=
  match file with
  | none => .error ("Error opening file: " ++ filename)
  | some lines => read_multi_lines lines 1

inductive OneIntFault where
  | nonInteger : OneIntFault
  | extra : OneIntFault
deriving DecidableEq, Repr

/-- One line of `read_one_int_per_line` (fanns_survey_helpers.cpp:59-70):
`ss >> value` reads one int (integer core; failure or overflow is a fault),
then `ss >> extra` succeeds exactly when a non-whitespace character remains,
which is the more-than-one-value fault. -/
def parseOneIntLine (line : String) : Except OneIntFault Int :=
  match parseIntCore line.data with
  | .error _ => .error .nonInteger
  | .ok (v, rest) =>
    if (rest.dropWhile isSpaceChar).isEmpty then .ok v else .error .extra

def read_one_int_lines : List String → Nat → Except String (List Int)
  | [], _ => .ok []
  | l :: ls, n =>
    match parseOneIntLine l with
    | .error .nonInteger => .error ("Non-integer or empty line at line " ++ toString n)
    | .error .extra => .error ("More than one value on line " ++ toString n)
    | .ok v =>
      match read_one_int_lines ls (n + 1) with
      | .error e => .error e
      | .ok r => .ok (v :: r)

/-- `read_one_int_per_line` (fanns_survey_helpers.cpp:51-73). -/
def read_one_int_per_line (file : Option (List String)) (filename : String) :
    Except String (List Int) :=
  match file with
  | none => .error ("Error opening file: " ++ filename)
  | some lines => read_one_int_lines lines 1

/-- Little-endian 32-bit value of four bytes. -/
def le32 (b0 b1 b2 b3 : Nat) : Nat :=
  b0 % 256 + 256 * (b1 % 256) + 65536 * (b2 % 256) + 16777216 * (b3 % 256)

/-- Group a byte list into little-endian 32-bit words (a trailing group of
fewer than four bytes is never consumed by the codec below). -/
def bytesToWords : List Nat → List Nat
  | b0 :: b1 :: b2 :: b3 :: rest => le32 b0 b1 b2 b3 :: bytesToWords rest
  | _ => []

/-- Record loop shared by `read_fvecs` and `read_ivecs`
(fanns_survey_helpers.cpp:22-28 and 40-46), elements kept as raw 32-bit
words (float bit patterns for fvecs, int32 values for ivecs — the framing is
identical).  Per iteration: read a 4-byte dimension `d` (fewer than 4 bytes
remaining breaks the loop cleanly); `std::vector vec(d)` with `d` holding a
negative int32 requests a gigantic size_t and raises std::length_error, the
only fault the loop can produce; a short element payload breaks the loop,
discarding the partial record.  The fuel argument counts loop iterations and
is instantiated with the byte count, an upper bound since every iteration
consumes at least the four dimension bytes. -/
def read_vecs_go : Nat → List Nat → Except Unit (List (List Nat))
  | 0, _ => .ok []
  | fuel + 1, b0 :: b1 :: b2 :: b3 :: rest =>
    if 2 ^ 31 ≤ le32 b0 b1 b2 b3 then .error ()
    else if rest.length < 4 * le32 b0 b1 b2 b3 then .ok []
    else
      match read_vecs_go fuel (rest.drop (4 * le32 b0 b1 b2 b3)) with
      | .error e => .error e
      | .ok tail => .ok (bytesToWords (rest.take (4 * le32 b0 b1 b2 b3)) :: tail)
  | _ + 1, _ => .ok []

def read_vecs (bytes : List Nat) : Except Unit (List (List Nat)) :=
  read_vecs_go bytes.length bytes

/-- `read_fvecs` (fanns_survey_helpers.cpp:15-31): on open failure, print to
stderr (first component) and return an empty dataset; otherwise decode. -/
def read_fvecs (file : Option (List Nat)) :
    List String × Except Unit (List (List Nat)) :=
  match file with
  | none => (["Error: Unable to open file for reading."], .ok [])
  | some bytes => ([], read_vecs bytes)

/-- `read_ivecs` (fanns_survey_helpers.cpp:33-49): identical framing. -/
def read_ivecs (file : Option (List Nat)) :
    List String × Except Unit (List (List Nat)) :=
  match file with
  | none => (["Error: Unable to open file for reading."], .ok [])
  | some bytes => ([], read_vecs bytes)

/-- Little-endian value of a byte list (used for the 8-byte size_t cells of
the mapping file). -/
def leVal (bs : List Nat) : Nat :=
  bs.foldr (fun b acc => b % 256 + 256 * acc) 0

/-- Mapping loader of search_wrapper.cpp:78-88: raise when the file cannot be
opened, else read a 4-byte count then that many 8-byte size_t entries.  The
source never checks the two `read` calls: a short file leaves cells
uninitialized (modelled as 0), and a negative count makes the
`std::vector<size_t>(num_points)` construction fault. -/
def loadMapping (file : Option (List Nat)) (filename : String) :
    Except String (List Nat) :=
  match file with
  | none => .error ("Unable to open mapping file: " ++ filename)
  | some bytes =>
    if 2 ^ 31 ≤ le32 (bytes.getD 0 0) (bytes.getD 1 0) (bytes.getD 2 0) (bytes.getD 3 0) then
      .error "length_error"
    else
      .ok ((List.range (le32 (bytes.getD 0 0) (bytes.getD 1 0) (bytes.getD 2 0) (bytes.getD 3 0))).map
        (fun i => leVal ((List.range 8).map (fun j => bytes.getD (4 + 8 * i + j) 0))))

/-- Little-endian byte expansion of a 32-bit word, the spec-side inverse of
`le32` used to state the codec's framing and truncation properties. -/
def encWord (w : Nat) : List Nat :=
  [w % 256, w / 256 % 256, w / 65536 % 256, w / 16777216 % 256]

def encWords : List Nat → List Nat
  | [] => []
  | w :: ws => encWord w ++ encWords ws

/-- Byte layout of one record: 4-byte dimension, then the elements. -/
def encRecord (r : List Nat) : List Nat :=
  encWord r.length ++ encWords r

def encRecords : List (List Nat) → List Nat
  | [] => []
  | r :: rs => encRecord r ++ encRecords rs

/-- Records whose dimensions are nonnegative int32 and elements 32-bit words. -/
def wellFormedRecords (recs : List (List Nat)) : Prop :=
  ∀ r ∈ recs, r.length < 2 ^ 31 ∧ ∀ w ∈ r, w < 2 ^ 32

/-- Trailing bytes that cannot form a complete record: fewer than 4 bytes
where a dimension is expected, or a nonnegative dimension whose element
payload is short. -/
def shortTail (junk : List Nat) : Prop :=
  junk.length < 4 ∨
    ∃ b0 b1 b2 b3 payload, junk = b0 :: b1 :: b2 :: b3 :: payload ∧
      le32 b0 b1 b2 b3 < 2 ^ 31 ∧ payload.length < 4 * le32 b0 b1 b2 b3

/-- `const int query_K = 10` (search_wrapper.cpp:11). -/
def query_K : Nat := 10

/-- Per-query true positives (search_wrapper.cpp:120-134): drain the result
queue into a set of ids translated through `sorted_to_original`, then count
the groundtruth entries present in that set.  Draining into `std::set`
deduplicates, which membership testing sees through, so the translated ids
are kept as a list here.  `getD _ 0` models the in-range indexed lookup;
an out-of-range sorted id is undefined behavior in the source. -/
def truePositives (mapping : List Int) (res : List Nat) (gt : List Int) : Nat :=
  gt.countP (fun g => (res.map (fun s => mapping.getD s 0)).contains g)

/-- One iteration of the query loop (search_wrapper.cpp:100-136), carried
over an accumulator of (engine-call trace, total_true_positives,
total_queries_processed). -/
def searchStep (mapping : List Int) (gt : List (List Int)) (engine : Nat → List Nat)
    (acc : List Nat × Nat × Nat) (i : Nat) : List Nat × Nat × Nat :=
  (acc.1 ++ [i], acc.2.1 + truePositives mapping (engine i) (gt.getD i []), acc.2.2 + 1)

/-- Search-mode driver after loading (search_wrapper.cpp:69-136): the two
count-consistency checks, then the query loop.  `n` is `storage.query_nb`,
`engine i` is the drained result-id list of the external range-filter +
top-K search for query `i` (the engine is opaque, spec section 1/6); the
first component records which queries reached an engine call.  Returns the
final (total_true_positives, total_queries_processed). -/
def searchMain (n : Nat) (ranges : List (Int × Int)) (gt : List (List Int))
    (mapping : List Int) (engine : Nat → List Nat) :
    List Nat × Except String (Nat × Nat) :=
  if ranges.length ≠ n then
    ([], .error "Number of query ranges does not match number of queries")
  else if gt.length ≠ n then
    ([], .error "Number of groundtruth entries does not match number of queries")
  else
    let st := (List.range n).foldl (searchStep mapping gt engine) ([], 0, 0)
    (st.1, .ok (st.2.1, st.2.2))

/-- Reported recall (search_wrapper.cpp:147):
`(float)total_true_positives / (total_queries_processed * query_K)`, as the
exact rational the float division rounds. -/
def reportedRecall (tp proc : Nat) : ℚ :=
  (tp : ℚ) / ((proc * query_K : Nat) : ℚ)

/-- The divisor the recall computation feeds to the float division. -/
def searchReportDivisor (proc : Nat) : Nat :=
  proc * query_K

/-- `std::atomic<int> peak_threads(1)` (search_wrapper.cpp:16, part_000:15). -/
def peak_threads_init : Int := 1

/-- One sample of `monitor_thread_count` (fanns_survey_helpers.cpp:167-169):
`if (current > peak_threads) peak_threads = current`. -/
def monitorStep (peak current : Int) : Int :=
  if peak < current then current else peak

/-- Peak value after the monitor loop processes a sample sequence, starting
from the initial value 1. -/
def monitorPeak (samples : List Int) : Int :=
  samples.foldl monitorStep peak_threads_init

/-- CLI parameters of the build wrapper (part_000).  A flag that is absent
leaves its path empty / its integer at the zero-initialized global value. -/
structure BuildArgs where
  data_vector : String
  index_save : String
  M : Int
  ef_construction : Int
  threads : Int
deriving DecidableEq, Repr

/-- Validation ladder of the build wrapper (part_000:34-43). -/
def validateBuild (a : BuildArgs) : Except String Unit :=
  if a.data_vector = "" then .error "data path is empty"
  else if a.index_save = "" then .error "index path is empty"
  else if a.M ≤ 0 then .error "M should be a positive integer"
  else if a.ef_construction ≤ 0 then .error "ef_construction should be a positive integer"
  else if a.threads ≤ 0 then .error "threads should be a positive integer"
  else .ok ()

/-- CLI parameters of the search wrapper (search_wrapper.cpp:23-36). -/
structure SearchArgs where
  data_vector : String
  query_vector : String
  query_ranges : String
  groundtruth : String
  index : String
  M : Int
  ef_search : Int
deriving DecidableEq, Repr

/-- Validation ladder of the search wrapper (search_wrapper.cpp:39-52). -/
def validateSearch (a : SearchArgs) : Except String Unit :=
  if a.data_vector = "" then .error "data path is empty"
  else if a.query_vector = "" then .error "query path is empty"
  else if a.query_ranges = "" then .error "query ranges file is empty"
  else if a.groundtruth = "" then .error "groundtruth file is empty"
  else if a.index = "" then .error "index path is empty"
  else if a.M ≤ 0 then .error "M should be a positive integer"
  else if a.ef_search ≤ 0 then .error "ef_search should be a positive integer"
  else .ok ()

/-- Build program entry: validation precedes everything else (monitor start,
loading, construction), so a validation fault means no work happened.  The
Bool records whether execution proceeded past validation. -/
def buildMain (a : BuildArgs) : Bool × Except String Unit :=
  match validateBuild a with
  | .error e => (false, .error e)
  | .ok _ => (true, .ok ())

/-- Search program entry, same shape (search_wrapper.cpp:39-52 precede all
loading and searching). -/
def searchEntry (a : SearchArgs) : Bool × Except String Unit :=
  match validateSearch a with
  | .error e => (false, .error e)
  | .ok _ => (true, .ok ())

/-- Concrete 2-query scenario for the recall computation: identity mapping
over 20 points. -/
def exMapping : List Int :=
  (List.range 20).map (fun i => (i : Int))

/-- Both queries return sorted ids 0..9. -/
def exEngine : Nat → List Nat :=
  fun _ => List.range 10

/-- Groundtruth rows with 7 and 5 ids among the returned ones. -/
def exGt : List (List Int) :=
  [[0, 1, 2, 3, 4, 5, 6, 15, 16, 17], [5, 6, 7, 8, 9, 10, 11, 12, 13, 14]]

def exRanges : List (Int × Int) :=
  [(0, 19), (0, 19)]

example : stoi "5" = .ok 5 := by decide
example : stoi "10-2" = .ok 10 := by decide
example : stoi "" = .error () := by decide
example : stoi "-7" = .ok (-7) := by decide
example : parseRangeLine "5-10" = .ok (5, 10) := by decide
example : parseRangeLine "5-10-2" = .ok (5, 10) := by decide
example : parseRangeLine "5-" = .error .badFormat := by decide
example : parseRangeLine "" = .error .badFormat := by decide
example : parseRangeLine "-5-10" = .error .badInt := by decide
example : read_two_ints_per_line (some ["5-10-2"]) "f" = .ok [(5, 10)] := by decide
example : parseCSVRow "3,,5" = .ok [3, 5] := by decide
example : parseCSVRow "" = .ok [] := by decide
example : parseCSVRow "3,5x" = .ok [3, 5] := by decide
example : parseCSVRow "3,x,5" = .error () := by decide
example : read_multiple_ints_per_line (some ["3,,5"]) "f" = .ok [[3, 5]] := by decide
example : parseOneIntLine "3 4" = .error .extra := by decide
example : parseOneIntLine " 42 " = .ok 42 := by decide
example : read_vecs [255, 255, 255, 255] = .error () := by decide
example : read_vecs [2, 0, 0, 0, 7, 0, 0, 0, 9, 0, 0, 0] = .ok [[7, 9]] := by decide
example : read_vecs [2, 0, 0, 0, 7, 0, 0, 0, 9, 0, 0] = .ok [] := by decide
example : read_vecs [1, 0, 0, 0, 7, 0, 0, 0, 1, 0] = .ok [[7]] := by decide
example : read_vecs [0, 0, 0, 0, 1, 0, 0, 0, 8, 0, 0, 0] = .ok [[], [8]] := by decide
example : truePositives exMapping (exEngine 0) (exGt.getD 0 []) = 7 := by decide
example : truePositives exMapping (exEngine 1) (exGt.getD 1 []) = 5 := by decide
example : (searchMain 2 exRanges exGt exMapping exEngine).2 = .ok (12, 2) := by decide
example : reportedRecall 12 2 = 3 / 5 := by norm_num [reportedRecall, query_K]
example : monitorPeak [3, 2, 5, 4] = 5 := by decide
example : searchMain 2 [(0, 1)] exGt exMapping exEngine
    = ([], .error "Number of query ranges does not match number of queries") := by decide
example : validateBuild ⟨"a", "b", 1, 2, 3⟩ = .ok () := by decide
example : validateBuild ⟨"a", "b", 0, 2, 3⟩ = .error "M should be a positive integer" := by decide

theorem searchFold (mapping : List Int) (gt : List (List Int)) (engine : Nat → List Nat) :
    ∀ n : Nat, (List.range n).foldl (searchStep mapping gt engine) ([], 0, 0)
      = (List.range n, ∑ i in Finset.range n, truePositives mapping (engine i) (gt.getD i []), n) := by
  intro n
  induction n with
  | zero => simp
  | succ n ih =>
    rw [List.range_succ, List.foldl_append, ih]
    simp [searchStep, Finset.sum_range_succ, List.range_succ]

/-- The count checks passed: `searchMain` visits every query in order and
accumulates the per-query true-positive counts. -/
theorem searchMain_ok (n : Nat) (ranges : List (Int × Int)) (gt : List (List Int))
    (mapping : List Int) (engine : Nat → List Nat)
    (h1 : ranges.length = n) (h2 : gt.length = n) :
    searchMain n ranges gt mapping engine
      = (List.range n,
         .ok (∑ i in Finset.range n, truePositives mapping (engine i) (gt.getD i []), n)) := by
  unfold searchMain
  rw [if_neg (by simp [h1]), if_neg (by simp [h2]), searchFold]

theorem monitorFold_le (l : List Int) : ∀ a : Int, a ≤ l.foldl monitorStep a := by
  induction l with
  | nil => intro a; simp
  | cons c cs ih =>
    intro a
    simp only [List.foldl_cons]
    exact le_trans (by unfold monitorStep; split <;> omega) (ih (monitorStep a c))

theorem monitorFold_mem (l : List Int) : ∀ a s : Int, s ∈ l → s ≤ l.foldl monitorStep a := by
  induction l with
  | nil => intro a s h; simp at h
  | cons c cs ih =>
    intro a s h
    simp only [List.foldl_cons]
    rcases List.mem_cons.mp h with h1 | h2
    · subst h1
      exact le_trans (by unfold monitorStep; split <;> omega) (monitorFold_le cs (monitorStep a s))
    · exact ih (monitorStep a c) s h2

theorem breakAtHyphen_append (f s : List Char) (hf : '-' ∉ f) :
    breakAtHyphen (f ++ '-' :: s) = some (f, s) := by
  induction f with
  | nil => simp [breakAtHyphen]
  | cons c cs ih =>
    have hc : ¬ c = '-' := by
      intro h
      exact hf (by simp [h])
    have hcs : '-' ∉ cs := fun h => hf (List.mem_cons_of_mem _ h)
    simp [breakAtHyphen, hc, ih hcs]

theorem breakAtHyphen_of_not_mem (cs : List Char) (h : '-' ∉ cs) :
    breakAtHyphen cs = none := by
  induction cs with
  | nil => rfl
  | cons c t ih =>
    have hc : ¬ c = '-' := by
      intro hh
      exact h (by simp [hh])
    have ht : '-' ∉ t := fun hh => h (List.mem_cons_of_mem _ hh)
    simp [breakAtHyphen, hc, ih ht]

theorem read_multi_lines_ok :
    ∀ (lines : List String) (n : Nat) (rows : List (List Int)),
      read_multi_lines lines n = .ok rows →
      rows.length = lines.length ∧
        ∀ i < lines.length, parseCSVRow (lines.getD i "") = .ok (rows.getD i []) := by
  intro lines
  induction lines with
  | nil =>
    intro n rows h
    simp only [read_multi_lines] at h
    simp at h
    subst h
    simp
  | cons l ls ih =>
    intro n rows h
    simp only [read_multi_lines] at h
    cases hrow : parseCSVRow l with
    | error e =>
      rw [hrow] at h
      simp at h
    | ok row =>
      rw [hrow] at h
      cases hrest : read_multi_lines ls (n + 1) with
      | error e =>
        rw [hrest] at h
        simp at h
      | ok rows2 =>
        rw [hrest] at h
        simp at h
        subst h
        obtain ⟨hlen, hall⟩ := ih (n + 1) rows2 hrest
        refine ⟨by simp [hlen], ?_⟩
        intro i hi
        cases i with
        | zero => simpa using hrow
        | succ j =>
          simp only [List.getD_cons_succ]
          exact hall j (by simpa using hi)

theorem le32_enc (w : Nat) :
    le32 (w % 256) (w / 256 % 256) (w / 65536 % 256) (w / 16777216 % 256)
      = w % 4294967296 := by
  unfold le32
  omega

theorem encWords_length (ws : List Nat) : (encWords ws).length = 4 * ws.length := by
  induction ws with
  | nil => rfl
  | cons w t ih =>
    show (encWord w ++ encWords t).length = 4 * (t.length + 1)
    rw [List.length_append, ih]
    simp only [encWord, List.length_cons, List.length_nil]
    omega

theorem bytesToWords_enc (r : List Nat) (h : ∀ w ∈ r, w < 2 ^ 32) :
    bytesToWords (encWords r) = r := by
  induction r with
  | nil => rfl
  | cons w t ih =>
    have hw : w < 2 ^ 32 := h w (by simp)
    have ht : ∀ x ∈ t, x < 2 ^ 32 := fun x hx => h x (by simp [hx])
    show bytesToWords (encWord w ++ encWords t) = w :: t
    have he : encWord w ++ encWords t
        = w % 256 :: w / 256 % 256 :: w / 65536 % 256 :: w / 16777216 % 256 :: encWords t := rfl
    rw [he]
    simp only [bytesToWords]
    rw [le32_enc, Nat.mod_eq_of_lt (by omega), ih ht]

theorem read_vecs_go_append :
    ∀ (recs : List (List Nat)) (junk : List Nat) (fuel : Nat),
      wellFormedRecords recs → shortTail junk →
      (encRecords recs ++ junk).length ≤ fuel →
      read_vecs_go fuel (encRecords recs ++ junk) = .ok recs := by
  intro recs
  induction recs with
  | nil =>
    intro junk fuel _ hshort hfuel
    simp only [encRecords, List.nil_append]
    rcases hshort with hlen | ⟨b0, b1, b2, b3, payload, hj, h31, hpay⟩
    · rcases junk with _ | ⟨x1, _ | ⟨x2, _ | ⟨x3, _ | ⟨x4, t⟩⟩⟩⟩
      · cases fuel <;> rfl
      · cases fuel <;> rfl
      · cases fuel <;> rfl
      · cases fuel <;> rfl
      · simp only [List.length_cons] at hlen
        omega
    · subst hj
      simp only [encRecords, List.nil_append, List.length_cons] at hfuel
      cases fuel with
      | zero => omega
      | succ f =>
        simp only [read_vecs_go]
        rw [if_neg (by omega), if_pos hpay]
  | cons r rs ih =>
    intro junk fuel hwf hshort hfuel
    have hr : r.length < 2 ^ 31 ∧ ∀ w ∈ r, w < 2 ^ 32 := hwf r (by simp)
    have hrs : wellFormedRecords rs := fun x hx => hwf x (by simp [hx])
    have hlen : (encWords r).length = 4 * r.length := encWords_length r
    simp only [encRecords, encRecord, encWord, List.cons_append, List.nil_append,
      List.append_assoc] at hfuel ⊢
    cases fuel with
    | zero => simp at hfuel
    | succ f =>
      have hr32 : r.length < 4294967296 := by
        have := hr.1
        omega
      simp only [read_vecs_go]
      rw [le32_enc, Nat.mod_eq_of_lt hr32]
      rw [if_neg (by have := hr.1; omega)]
      rw [if_neg (by simp only [List.length_append, hlen]; omega)]
      rw [List.drop_left' hlen, List.take_left' hlen]
      have hfuel2 : (encRecords rs ++ junk).length ≤ f := by
        simp only [List.length_cons, List.length_append, hlen] at hfuel
        simp only [List.length_append]
        omega
      rw [ih junk f hrs hshort hfuel2, bytesToWords_enc r hr.2]

/-- Claim C1: in search mode the reported recall equals
total_true_positives / (total_queries_processed * K), where each query
contributes the number of its groundtruth ids found in the drained,
mapping-translated result set; concretely, 2 queries with K = 10 and
per-query true-positive counts 7 and 5 give recall 12 / 20 = 0.6. -/
theorem recall_matches_formula :
    (∀ (n : Nat) (ranges : List (Int × Int)) (gt : List (List Int))
        (mapping : List Int) (engine : Nat → List Nat),
        ranges.length = n → gt.length = n →
        (searchMain n ranges gt mapping engine).2
          = .ok (∑ i in Finset.range n, truePositives mapping (engine i) (gt.getD i []), n))
    ∧ (∀ tp proc : Nat, reportedRecall tp proc = (tp : ℚ) / ((proc * query_K : Nat) : ℚ))
    ∧ truePositives exMapping (exEngine 0) (exGt.getD 0 []) = 7
    ∧ truePositives exMapping (exEngine 1) (exGt.getD 1 []) = 5
    ∧ (searchMain 2 exRanges exGt exMapping exEngine).2 = .ok (12, 2)
    ∧ reportedRecall 12 2 = 3 / 5 := by
  refine ⟨?_, fun tp proc => rfl, by decide, by decide, by decide,
    by norm_num [reportedRecall, query_K]⟩
  intro n ranges gt mapping engine h1 h2
  rw [searchMain_ok n ranges gt mapping engine h1 h2]

theorem recall_matches_formula_witness :
    (searchMain 2 exRanges exGt exMapping exEngine).2
      = .ok (∑ i in Finset.range 2, truePositives exMapping (exEngine i) (exGt.getD i []), 2) :=
  recall_matches_formula.1 2 exRanges exGt exMapping exEngine (by decide) (by decide)

/-- Claim C2 counterexample: the claim says the line "5-10-2" raises a fault
citing line 1, but `std::stoi("10-2")` parses the leading 10 and ignores the
rest, and the `!ss.eof()` test never fires, so the parser returns (5, 10)
without any fault. -/
theorem range_pair_trailing_junk_decodes :
    read_two_ints_per_line (some ["5-10-2"]) "f" = .ok [(5, 10)] := by decide

/-- Claim C2 (amended): each line must contain a hyphen with at least one
character after the first hyphen; the line splits at the first hyphen and
both fields go through std::stoi, which ignores trailing characters, so no
check rejects text after the second integer ("5-10-2" decodes to (5, 10));
a line with no hyphen, or nothing after the first hyphen, is a format fault
naming the 1-based line, and a field with no integer to parse is an integer
fault naming the line. -/
theorem range_pair_amended :
    (∀ (f s : List Char), '-' ∉ f → s ≠ [] →
        parseRangeLine (String.mk (f ++ '-' :: s))
          = match stoi (String.mk f), stoi (String.mk s) with
            | .ok a, .ok b => .ok (a, b)
            | _, _ => .error .badInt)
    ∧ (∀ cs : List Char, '-' ∉ cs → parseRangeLine (String.mk cs) = .error .badFormat)
    ∧ (∀ f : List Char, '-' ∉ f → parseRangeLine (String.mk (f ++ ['-'])) = .error .badFormat)
    ∧ read_two_ints_per_line (some ["5-10"]) "f" = .ok [(5, 10)]
    ∧ read_two_ints_per_line (some ["5-10-2"]) "f2" = .ok [(5, 10)]
    ∧ read_two_ints_per_line (some ["5-10", "7"]) "f3" = .error "Invalid format at line 2" := by
  refine ⟨?_, ?_, ?_, by decide, by decide, by decide⟩
  · intro f s hf hs
    obtain ⟨c, cs, rfl⟩ : ∃ c cs, s = c :: cs := by
      cases s with
      | nil => exact absurd rfl hs
      | cons c cs => exact ⟨c, cs, rfl⟩
    have hd : (String.mk (f ++ '-' :: c :: cs)).data = f ++ '-' :: c :: cs := rfl
    simp only [parseRangeLine, hd, breakAtHyphen_append f (c :: cs) hf]
  · intro cs h
    have hd : (String.mk cs).data = cs := rfl
    simp only [parseRangeLine, hd, breakAtHyphen_of_not_mem cs h]
  · intro f hf
    have hd : (String.mk (f ++ ['-'])).data = f ++ '-' :: [] := rfl
    simp only [parseRangeLine, hd, breakAtHyphen_append f [] hf]

theorem range_pair_amended_witness :
    parseRangeLine (String.mk (['5'] ++ '-' :: ['1', '0']))
      = match stoi (String.mk ['5']), stoi (String.mk ['1', '0']) with
        | .ok a, .ok b => .ok (a, b)
        | _, _ => .error .badInt :=
  range_pair_amended.1 ['5'] ['1', '0'] (by decide) (by decide)

/-- Claim C3 counterexample: the 4-byte stream FF FF FF FF decodes a
dimension of -1; `std::vector<float> vec(d)` converts that to a gigantic
size_t and raises std::length_error, so decoding corrupt content CAN raise
an error, contradicting the claim that it never does. -/
theorem fvecs_negative_dim_raises :
    read_fvecs (some [255, 255, 255, 255]) = ([], .error ()) := by decide

/-- Claim C3 (amended): decoding never raises on truncated content — fewer
than 4 bytes where a dimension is expected stop decoding cleanly, and a short
element payload discards the partial record, returning exactly the prior
complete records — provided every dimension field is a nonnegative int32; a
dimension field with the sign bit set (a negative int32) makes the element
vector's construction raise a length fault. -/
theorem vecs_truncation_amended :
    (∀ (recs : List (List Nat)) (junk : List Nat),
        wellFormedRecords recs → shortTail junk →
        read_vecs (encRecords recs ++ junk) = .ok recs)
    ∧ read_vecs [255, 255, 255, 255] = .error () := by
  refine ⟨?_, by decide⟩
  intro recs junk hwf hsh
  exact read_vecs_go_append recs junk _ hwf hsh le_rfl

theorem vecs_truncation_amended_witness :
    read_vecs (encRecords [[7]] ++ [9]) = .ok [[7]] :=
  vecs_truncation_amended.1 [[7]] [9] (by unfold wellFormedRecords; decide)
    (by unfold shortTail; exact Or.inl (by decide))

/-- Claim C4 counterexample: "5x" is not an integer, yet the parser does not
fault on it — `std::stoi` parses the leading 5 and ignores the rest — so the
claim that a non-integer token raises a fault fails. -/
theorem csv_noninteger_token_no_fault :
    read_multiple_ints_per_line (some ["3,5x"]) "f" = .ok [[3, 5]] := by decide

/-- Claim C4 (amended): the output has exactly one row per input line in
input order (a row may be empty); empty tokens between consecutive commas
are silently skipped, so "3,,5" decodes to [3, 5]; a token with no leading
integer raises a fault naming the 1-based line, but a token with a leading
integer followed by trailing characters parses as that integer rather than
faulting. -/
theorem csv_rows_amended :
    (∀ (lines : List String) (name : String) (rows : List (List Int)),
        read_multiple_ints_per_line (some lines) name = .ok rows →
        rows.length = lines.length ∧
          ∀ i < lines.length, parseCSVRow (lines.getD i "") = .ok (rows.getD i []))
    ∧ read_multiple_ints_per_line (some ["3,,5"]) "f" = .ok [[3, 5]]
    ∧ read_multiple_ints_per_line (some ["1", "3,x,5"]) "f" = .error "Invalid integer on line 2"
    ∧ read_multiple_ints_per_line (some ["3,5x"]) "g" = .ok [[3, 5]] := by
  refine ⟨?_, by decide, by decide, by decide⟩
  intro lines name rows h
  exact read_multi_lines_ok lines 1 rows h

theorem csv_rows_amended_witness :
    ([[3, 5]] : List (List Int)).length = (["3,,5"] : List String).length ∧
      ∀ i < (["3,,5"] : List String).length,
        parseCSVRow ((["3,,5"] : List String).getD i "")
          = .ok (([[3, 5]] : List (List Int)).getD i []) :=
  csv_rows_amended.1 ["3,,5"] "f" [[3, 5]] (by decide)

/-- Claim C5: if the range count or the groundtruth count differs from the
query count, search mode raises a consistency fault before any search call
executes — the engine-call trace is empty and the run ends in an error. -/
theorem consistency_fault_before_search :
    (∀ (n : Nat) (ranges : List (Int × Int)) (gt : List (List Int))
        (mapping : List Int) (engine : Nat → List Nat),
        ranges.length ≠ n ∨ gt.length ≠ n →
        (searchMain n ranges gt mapping engine).1 = [] ∧
          ∃ e, (searchMain n ranges gt mapping engine).2 = .error e)
    ∧ searchMain 100 (List.replicate 99 ((0 : Int), (0 : Int)))
        (List.replicate 100 ([] : List Int)) [] (fun _ => [])
        = ([], .error "Number of query ranges does not match number of queries") := by
  refine ⟨?_, by decide⟩
  intro n ranges gt mapping engine h
  unfold searchMain
  rcases h with h | h
  · rw [if_pos h]
    exact ⟨rfl, _, rfl⟩
  · by_cases h1 : ranges.length ≠ n
    · rw [if_pos h1]
      exact ⟨rfl, _, rfl⟩
    · rw [if_neg h1, if_pos h]
      exact ⟨rfl, _, rfl⟩

theorem consistency_fault_before_search_witness :
    (searchMain 100 (List.replicate 99 ((0 : Int), (0 : Int)))
        (List.replicate 100 ([] : List Int)) [] (fun _ => [])).1 = [] ∧
      ∃ e, (searchMain 100 (List.replicate 99 ((0 : Int), (0 : Int)))
        (List.replicate 100 ([] : List Int)) [] (fun _ => [])).2 = .error e :=
  consistency_fault_before_search.1 100 _ _ _ _ (Or.inl (by decide))

/-- Claim C6: on open failure the binary codecs (read_fvecs / read_ivecs) do
not raise — they print a diagnostic to stderr and return an empty dataset —
while the three line-format parsers and the ID-mapping loader raise a fault
whose message names the file. -/
theorem open_failure_policy :
    read_fvecs none = (["Error: Unable to open file for reading."], .ok [])
    ∧ read_ivecs none = (["Error: Unable to open file for reading."], .ok [])
    ∧ (∀ name : String,
        read_one_int_per_line none name = .error ("Error opening file: " ++ name))
    ∧ (∀ name : String,
        read_multiple_ints_per_line none name = .error ("Error opening file: " ++ name))
    ∧ (∀ name : String,
        read_two_ints_per_line none name = .error ("Error opening file: " ++ name))
    ∧ (∀ name : String,
        loadMapping none name = .error ("Unable to open mapping file: " ++ name)) :=
  ⟨rfl, rfl, fun _ => rfl, fun _ => rfl, fun _ => rfl, fun _ => rfl⟩

/-- Claim C7: the shared peak starts at 1, a sample only ever raises it, and
the peak read after joining is at least every individual sample and at least
the initial value 1. -/
theorem monitor_peak_monotone :
    monitorPeak [] = 1
    ∧ (∀ p c : Int, p ≤ monitorStep p c)
    ∧ (∀ samples : List Int, 1 ≤ monitorPeak samples)
    ∧ (∀ samples : List Int, ∀ s ∈ samples, s ≤ monitorPeak samples) := by
  refine ⟨rfl, ?_, ?_, ?_⟩
  · intro p c
    unfold monitorStep
    split <;> omega
  · intro samples
    exact monitorFold_le samples peak_threads_init
  · intro samples s hs
    exact monitorFold_mem samples peak_threads_init s hs

theorem monitor_peak_monotone_witness :
    (2 : Int) ≤ monitorPeak [3, 2] ∧ 1 ≤ monitorPeak [3, 2] :=
  ⟨monitor_peak_monotone.2.2.2 [3, 2] 2 (by decide),
   monitor_peak_monotone.2.2.1 [3, 2]⟩

/-- Claim C8: in both modes validation runs before any work: the run
proceeds exactly when every required path is non-empty and every numeric
parameter (M, ef_construction / ef_search, thread budget) is strictly
positive, and any violation ends the run in a configuration fault with
nothing else executed. -/
theorem config_validation_iff :
    (∀ a : BuildArgs, validateBuild a = .ok ()
      ↔ (a.data_vector ≠ "" ∧ a.index_save ≠ "" ∧ 0 < a.M ∧ 0 < a.ef_construction ∧
         0 < a.threads))
    ∧ (∀ a : SearchArgs, validateSearch a = .ok ()
      ↔ (a.data_vector ≠ "" ∧ a.query_vector ≠ "" ∧ a.query_ranges ≠ "" ∧
         a.groundtruth ≠ "" ∧ a.index ≠ "" ∧ 0 < a.M ∧ 0 < a.ef_search))
    ∧ (∀ a : BuildArgs, validateBuild a ≠ .ok () →
        (buildMain a).1 = false ∧ ∃ e, (buildMain a).2 = .error e)
    ∧ (∀ a : SearchArgs, validateSearch a ≠ .ok () →
        (searchEntry a).1 = false ∧ ∃ e, (searchEntry a).2 = .error e) := by
  refine ⟨?_, ?_, ?_, ?_⟩
  · intro a
    unfold validateBuild
    split_ifs with h1 h2 h3 h4 h5 <;> simp_all
  · intro a
    unfold validateSearch
    split_ifs with h1 h2 h3 h4 h5 h6 h7 <;> simp_all
  · intro a h
    unfold buildMain
    cases hv : validateBuild a with
    | error e => exact ⟨rfl, e, rfl⟩
    | ok v =>
      cases v
      exact absurd hv h
  · intro a h
    unfold searchEntry
    cases hv : validateSearch a with
    | error e => exact ⟨rfl, e, rfl⟩
    | ok v =>
      cases v
      exact absurd hv h

theorem config_validation_iff_witness :
    validateBuild ⟨"a", "b", 1, 2, 3⟩ = .ok ()
    ∧ ((buildMain ⟨"", "b", 1, 2, 3⟩).1 = false ∧
        ∃ e, (buildMain ⟨"", "b", 1, 2, 3⟩).2 = .error e) :=
  ⟨(config_validation_iff.1 ⟨"a", "b", 1, 2, 3⟩).mpr (by decide),
   config_validation_iff.2.2.1 ⟨"", "b", 1, 2, 3⟩ (by decide)⟩

/-- Claim C9 counterexample: a zero-query search run completes normally —
the loop produces total_true_positives = 0, total_queries_processed = 0 —
and the recall computation's divisor total_queries_processed * query_K is 0:
the division by zero is performed (an IEEE float NaN), and QPS is likewise
computed, so nothing is reported as undefined. -/
theorem zero_query_run_divides_by_zero :
    searchMain 0 [] [] [] (fun _ => []) = ([], .ok (0, 0))
      ∧ searchReportDivisor 0 = 0 :=
  ⟨rfl, rfl⟩

/-- Claim C9 (amended): the code has no zero-query guard — a run that
processes zero queries still completes and computes recall with divisor
total_queries_processed * K = 0 (IEEE NaN) and QPS as 0 over the elapsed
time; recall and QPS are never reported as undefined. -/
theorem zero_query_amended :
    (∀ (mapping : List Int) (engine : Nat → List Nat),
        searchMain 0 [] [] mapping engine = ([], .ok (0, 0)))
    ∧ (∀ proc : Nat, searchReportDivisor proc = proc * query_K)
    ∧ searchReportDivisor 0 = 0 :=
  ⟨fun _ _ => rfl, fun _ => rfl, rfl⟩

/-- Claim C10: a line whose first character is a hyphen splits into an empty
first field, which std::stoi cannot parse, so the parser always faults on it
and a range with a negative low bound can never be decoded. -/
theorem negative_low_bound_fault :
    (∀ rest : List Char, ∃ e, parseRangeLine (String.mk ('-' :: rest)) = .error e)
    ∧ (∀ (rest : List Char) (p : Int × Int),
        parseRangeLine (String.mk ('-' :: rest)) ≠ .ok p)
    ∧ read_two_ints_per_line (some ["-5-10"]) "f"
        = .error "Invalid integer value at line 1" := by
  have key : ∀ rest : List Char, ∃ e, parseRangeLine (String.mk ('-' :: rest)) = .error e := by
    intro rest
    have hd : (String.mk ('-' :: rest)).data = '-' :: rest := rfl
    cases rest with
    | nil => exact ⟨.badFormat, by simp [parseRangeLine, hd, breakAtHyphen]⟩
    | cons c cs =>
      refine ⟨.badInt, ?_⟩
      have hb : breakAtHyphen ('-' :: c :: cs) = some ([], c :: cs) := by
        simp [breakAtHyphen]
      simp only [parseRangeLine, hd, hb]
      cases hs : stoi (String.mk (c :: cs)) with
      | error e => rfl
      | ok v => rfl
  refine ⟨key, ?_, by decide⟩
  intro rest p h
  obtain ⟨e, he⟩ := key rest
  rw [he] at h
  simp at h
